import Mathlib

/-!
Shallow embedding of the client-side validation, submission-pipeline and
result-rendering logic of the medical-prediction-platform front-end
(static/js/covid.js, static/js/cardiovascular.js, static/js/eye.js and the
two unnamed script bundles), together with proofs settling the frozen
claims about it.

Conventions of the embedding:
* JavaScript numbers that carry lab values / BMI data are modelled as `ℚ`
  (all constants in the source are exact decimals and no float-boundary
  behaviour is at stake in any claim).
* A raw text-input value is modelled either as a `String` (where the exact
  string matters, e.g. `parseInt` semantics) or by the abstraction
  `RawValue` (empty / non-numeric / numeric with parsed value), mirroring
  the source's `value === ''` check followed by `parseFloat`.
* DOM effects (CSS classes, alerts, innerHTML) are modelled by the data
  they carry: the validity class a field ends up with, the message text
  surfaced, the disabled flag of the submit control, the number of fetch
  calls issued.
-/

/-- Tri-state-plus-empty classification a field ends up with after
`validateField` in covid.js: no class for an empty value, and the CSS
classes `invalid` / `abnormal` / `valid` otherwise. -/
inductive Validity : Type
  | empty
  | invalid
  | validAbnormal
  | validNormal
deriving DecidableEq, Repr

/-- One entry of covid.js `validationRanges`: inclusive bounds `min`/`max`
and the optional advisory `normal` sub-range `[normal_lo, normal_hi]`. -/
structure NumericSpec where
  min : ℚ
  max : ℚ
  normal : Option (ℚ × ℚ)
deriving DecidableEq, Repr

/-- Abstraction of a raw text-input string as consumed by covid.js
`validateField`: the source first checks `field.value === ''`, then runs
`parseFloat` and checks `isNaN`.  `emptyStr` is the empty string,
`nonNumeric` any non-empty string on which `parseFloat` yields `NaN`, and
`num q` a string parsing to the number `q`. -/
inductive RawValue : Type
  | emptyStr
  | nonNumeric
  | num (q : ℚ)
deriving DecidableEq, Repr

/-- covid.js `validateField` (lines 110-146), as the validity class the
field ends up with: empty value → no class; `NaN` → `invalid`;
outside `[min, max]` → `invalid`; inside the bounds but outside the
declared `normal` range → `abnormal`; otherwise → `valid`. -/
def validateField (spec : NumericSpec) (v : RawValue) : Validity :=
  match v with
  | RawValue.emptyStr => Validity.empty
  | RawValue.nonNumeric => Validity.invalid
  | RawValue.num q =>
    if q < spec.min ∨ q > spec.max then
      Validity.invalid
    else
      match spec.normal with
      | some nr =>
          if q < nr.1 ∨ q > nr.2 then Validity.validAbnormal else Validity.validNormal
      | none => Validity.validNormal

/-- `parseFloat(input.value)` over the `RawValue` abstraction: the empty
string parses to `NaN` (`parseFloat('')` is `NaN` in JavaScript), as does
any non-numeric string; a numeric string parses to its value. -/
def parseFloatRV : RawValue → Option ℚ
  | RawValue.emptyStr => none
  | RawValue.nonNumeric => none
  | RawValue.num q => some q

/-- The alert raised by `validateNumericInput`, with the data the source
interpolates into the message text: `Please enter a valid number for
<fieldName>` for a `NaN` value, and `<fieldName> must be between <min> and
<max>, got <value>` for an out-of-range value. -/
inductive NumericAlert : Type
  | notANumber (fieldName : String)
  | outOfRange (fieldName : String) (min max value : ℚ)
deriving DecidableEq, Repr

/-- `validateNumericInput` from the shared utilities (part_000 lines
195-211), the gating numeric validator of the lung form's `validateForm`:
it runs `parseFloat` with NO empty-string check, so an empty value is
`NaN` and takes the `Please enter a valid number` alert path; an in-range
parse returns `true` with no alert.  Result: the returned boolean and the
alert, if any. -/
def validateNumericInput (input : RawValue) (min max : ℚ) (fieldName : String) :
    Bool × Option NumericAlert :=
  match parseFloatRV input with
  | none => (false, some (NumericAlert.notANumber fieldName))
  | some value =>
    if value < min ∨ value > max then
      (false, some (NumericAlert.outOfRange fieldName min max value))
    else (true, none)

/-- Boolean test that the first character list is an initial segment of the
second; helper for the embedding of JavaScript `String.prototype.includes`. -/
def listIsPref : List Char → List Char → Bool
  | [], _ => true
  | _ :: _, [] => false
  | a :: ps, b :: ls => a == b && listIsPref ps ls

/-- Boolean substring test on character lists: `p` occurs contiguously in
the second argument (the empty pattern occurs everywhere). -/
def listIncludes (p : List Char) : List Char → Bool
  | [] => p.isEmpty
  | c :: rest => listIsPref p (c :: rest) || listIncludes p rest

/-- JavaScript `s.includes(pat)`: `pat` is a contiguous substring of `s`. -/
def jsIncludes (s pat : String) : Bool :=
  listIncludes pat.data s.data

/-- JavaScript `s.toLowerCase()` (the source only compares ASCII
vocabulary, where `Char.toLower` agrees with JS). -/
def jsToLowerCase (s : String) : String :=
  String.mk (s.data.map Char.toLower)

/-- The decimal path of JavaScript `parseInt(s)`: skip leading whitespace,
read an optional sign, then the longest prefix of decimal digits; `none`
(`NaN`) when no digit follows.  The hexadecimal `0x` prefix form of
`parseInt` is not modelled (no claim involves it). -/
def takeDigits : List Char → List Char
  | [] => []
  | c :: rest => if c.isDigit then c :: takeDigits rest else []

/-- Numeric value of a list of decimal digit characters. -/
def digitsToNat (l : List Char) : Nat :=
  l.foldl (fun acc c => acc * 10 + (c.toNat - Char.toNat '0')) 0

/-- JavaScript `parseInt(s)` on the decimal path (see `takeDigits`). -/
def parseIntJS (s : String) : Option Int :=
  let chars := s.data.dropWhile (fun c => c == ' ' || c == '\t' || c == '\n' || c == '\r')
  match chars with
  | '-' :: r =>
      let ds := takeDigits r
      if ds.isEmpty then none else some (-(digitsToNat ds : Int))
  | '+' :: r =>
      let ds := takeDigits r
      if ds.isEmpty then none else some ((digitsToNat ds : Int))
  | r =>
      let ds := takeDigits r
      if ds.isEmpty then none else some ((digitsToNat ds : Int))

/-- `validateBinaryInput` from the shared utilities (part_000 lines
219-229): `const value = parseInt(input.value)`; reject iff `isNaN(value)`
or the value is neither `0` nor `1`. -/
def validateBinaryInput (s : String) : Bool :=
  match parseIntJS s with
  | none => false
  | some v => v == 0 || v == 1

/-- Risk-tier classification of the shared `showResult` (part_000 lines
119-120) and of the lung-cancer `showLungCancerResult`:
`result.prediction.toLowerCase().includes('high risk') ||
result.prediction.toLowerCase().includes('positive')`. -/
def showResultIsHighRisk (prediction : String) : Bool :=
  jsIncludes (jsToLowerCase prediction) "high risk" ||
    jsIncludes (jsToLowerCase prediction) "positive"

/-- Risk-tier classification of `displayResults` in
static/js/cardiovascular.js line 226:
`result.prediction.includes('HIGH RISK')` (case-sensitive). -/
def cardioDisplayIsHighRisk (prediction : String) : Bool :=
  jsIncludes prediction "HIGH RISK"

/-- `getBMICategory` from the CV results renderer (part_000 lines
1251-1256). -/
def getBMICategory (bmi : ℚ) : String :=
  if bmi < 18.5 then "Underweight"
  else if bmi < 25 then "Normal weight"
  else if bmi < 30 then "Overweight"
  else "Obese"

/-- BMI computation of `displayResults` (part_000 lines 1206-1209):
`height` in cm is divided by 100 and BMI is `weight / (height * height)`. -/
def computeBMI (weight heightCm : ℚ) : ℚ :=
  let h := heightCm / 100
  weight / (h * h)

/-- `showError` from the shared utilities (part_000 lines 163-185), as the
text placed into the result description: empty (falsy) message → generic
sentence; message containing `fetch` → connectivity sentence; containing
`JSON` → server-format sentence; lower-cased message containing `model` →
service-unavailable sentence; otherwise the message itself is shown. -/
def showErrorFriendly (errorMessage : String) : String :=
  if errorMessage == "" then "Please try again or check your connection."
  else if jsIncludes errorMessage "fetch" then
    "Unable to connect to server. Please check your internet connection."
  else if jsIncludes errorMessage "JSON" then
    "Server returned invalid response. Please try again."
  else if jsIncludes (jsToLowerCase errorMessage) "model" then
    "Prediction service is currently unavailable. Please try again later."
  else errorMessage

/-- Field acceptance test used by covid.js `updateProgress` and
`updateSubmitButton` (lines 192-213): the field counts iff its value is
non-empty and it does not carry the `invalid` class, i.e. its validity is
`validAbnormal` or `validNormal`. -/
def isComplete : Validity → Bool
  | Validity.validAbnormal => true
  | Validity.validNormal => true
  | _ => false

/-- Number of required fields that are filled and not invalid
(covid.js `updateProgress`, lines 193-196). -/
def countComplete (l : List Validity) : Nat :=
  (l.filter isComplete).length

/-- covid.js progress percentage (line 198):
`(filledFields.length / requiredFields.length) * 100`. -/
def progressPercent (l : List Validity) : ℚ :=
  ((countComplete l : ℚ) / (l.length : ℚ)) * 100

/-- covid.js `updateSubmitButton` (lines 204-213): the submit control is
enabled iff every required field is non-empty and not invalid; this is the
`canSubmit` output (`allValid`). -/
def covidCanSubmit (l : List Validity) : Bool :=
  l.all isComplete

/-- Error lines accumulated by covid.js `validateForm` (lines 219-230):
one `<label> is required` line per empty field and one
`<label> has an invalid value` line per invalid field, in field order.
The display label lookup (`getFieldLabel`) is modelled as the identity on
the supplied display name (the source falls back to the field name when no
label element exists). -/
def covidErrors : List (String × Validity) → List String
  | [] => []
  | f :: rest =>
    match f.2 with
    | Validity.empty => (f.1 ++ " is required") :: covidErrors rest
    | Validity.invalid => (f.1 ++ " has an invalid value") :: covidErrors rest
    | _ => covidErrors rest

/-- covid.js `validateForm` (lines 215-237): returns `isValid` together
with the consolidated error lines shown by `showError` when invalid.  In
the source `isValid` is set to `false` exactly when a line is pushed, so
`isValid` equals the error list being empty. -/
def covidValidateForm (fields : List (String × Validity)) : Bool × List String :=
  ((covidErrors fields).isEmpty, covidErrors fields)

/-- The covid.js submit handler (lines 64-70): `validateForm()` gates
`submitPrediction()`, which issues exactly one `fetch`.  Result: number of
network requests issued and the surfaced error lines. -/
def covidHandleSubmit (fields : List (String × Validity)) : Nat × List String :=
  match covidValidateForm fields with
  | (true, _) => (1, [])
  | (false, errs) => (0, errs)

/-- JavaScript `name.replace('_', ' ')`: only the first underscore is
replaced. -/
def replaceFirstUnderscore : List Char → List Char
  | [] => []
  | c :: rest => if c == '_' then ' ' :: rest else c :: replaceFirstUnderscore rest

/-- `validateForm` of the lung-cancer form (part_001 lines 10-45), over
the `parseInt` result of each required field in order plus the gender
radio state: the source alerts on the FIRST offending field and returns
`false` immediately.  Result: `isValid` and the alert message, if any. -/
def lungValidateForm : List (String × Option Int) → Bool → Bool × Option String
  | [], gender =>
    if gender then (true, none) else (false, some "Please select a gender")
  | (name, v) :: rest, gender =>
    let outerBad : Bool :=
      match v with
      | none => true
      | some n => decide (n < 0) || decide (n > 1)
    if outerBad then
      if name == "age" then
        let ageBad : Bool :=
          match v with
          | none => true
          | some n => decide (n < 1) || decide (n > 120)
        if ageBad then (false, some "Please enter a valid age between 1 and 120")
        else lungValidateForm rest gender
      else
        (false, some ("Please enter 0 or 1 for " ++ String.mk (replaceFirstUnderscore name.data)))
    else lungValidateForm rest gender

/-- Per-field state as seen by the part_001 cardiovascular
`updateSubmitButton`: whether the field has a non-empty value and whether
it carries the `blocking-invalid` class. -/
structure CardioFieldState where
  filled : Bool
  blocking : Bool
deriving DecidableEq, Repr

/-- `updateSubmitButton` of the part_001 cardiovascular form (lines
1107-1135): the control is NEVER disabled (`submitBtn.disabled = false`
unconditionally); only the label changes.  Result: the `disabled` flag and
the button label (decorative emoji prefixes omitted). -/
def cardioUpdateSubmitButton (fields : List CardioFieldState) : Bool × String :=
  let allComplete := fields.all (fun f => f.filled)
  let hasBlocking := fields.any (fun f => f.blocking)
  (false,
    if hasBlocking then "Review Values & Submit"
    else if allComplete then "Assess Heart Disease Risk"
    else "Complete all fields to continue")

/-- UI state of a form's submission pipeline: whether the submit control
is disabled, how many prediction requests are currently in flight, and how
many were issued in total. -/
structure PipelineUI where
  btnDisabled : Bool
  inFlight : Nat
  total : Nat
deriving DecidableEq, Repr

/-- Page-load state: control enabled, no request in flight. -/
def pipelineInit : PipelineUI := ⟨false, 0, 0⟩

/-- User-visible pipeline events: a submit attempt (with the outcome of
`validateForm()`) or the settling of an in-flight request (the `finally`
block). -/
inductive SubmitEvent : Type
  | submit (valid : Bool)
  | settle
deriving DecidableEq, Repr

/-- covid.js pipeline step.  A submit attempt on a disabled control is a
no-op (the browser does not fire `submit` for a disabled default button —
the mechanism the spec itself names).  Otherwise `validateForm` gates
`submitPrediction` (lines 64-70), which disables the control, issues one
`fetch`, and in its `finally` block (lines 289-298, the `settle` event)
re-enables the control. -/
def covidStep (m : PipelineUI) : SubmitEvent → PipelineUI
  | SubmitEvent.submit valid =>
    if m.btnDisabled then m
    else if valid then ⟨true, m.inFlight + 1, m.total + 1⟩
    else m
  | SubmitEvent.settle =>
    if m.inFlight = 0 then m else ⟨false, m.inFlight - 1, m.total⟩

/-- Pipeline step of the part_001 cardiovascular form: `submitPrediction`
(lines 1016-1054) never disables the control and `updateSubmitButton`
forces `disabled = false`, so every submit attempt with valid fields
starts another (mock `setTimeout`) prediction request. -/
def cardioMockStep (m : PipelineUI) : SubmitEvent → PipelineUI
  | SubmitEvent.submit valid =>
    if valid then ⟨false, m.inFlight + 1, m.total + 1⟩ else m
  | SubmitEvent.settle =>
    if m.inFlight = 0 then m else ⟨false, m.inFlight - 1, m.total⟩

/-- Invariant of the covid.js pipeline: the submit control is disabled
exactly while one request is in flight, and never more than one. -/
def covidPipelineInv (m : PipelineUI) : Prop :=
  (m.btnDisabled = false ∧ m.inFlight = 0) ∨ (m.btnDisabled = true ∧ m.inFlight = 1)

/-- Upload-related state of `EyeDiseaseDetector`: the selected file
(MIME type and byte size), whether the preview is shown, the analyze
button's `disabled` flag, and whether the error card is shown. -/
structure EyeState where
  currentFile : Option (String × Nat)
  previewShown : Bool
  analyzeBtnDisabled : Bool
  errorShown : Bool
deriving DecidableEq, Repr

/-- `validTypes` of `EyeDiseaseDetector.processFile` (eye.js line 105). -/
def validTypes : List String :=
  ["image/jpeg", "image/jpg", "image/png", "image/gif", "image/bmp"]

/-- `maxSize` of `processFile` (eye.js line 112): 10MB. -/
def eyeMaxSize : Nat := 10 * 1024 * 1024

/-- `EyeDiseaseDetector.processFile` (eye.js lines 103-122) on a file with
the given MIME type and byte size: reject (show error, leave the upload
state untouched) when the type is not in `validTypes` or the size exceeds
`maxSize`; otherwise store the file, show the preview, enable the analyze
button, and hide the error card. -/
def processFile (st : EyeState) (fileType : String) (fileSize : Nat) : EyeState :=
  if ¬ (validTypes.contains fileType) then
    { st with errorShown := true }
  else if fileSize > eyeMaxSize then
    { st with errorShown := true }
  else
    { currentFile := some (fileType, fileSize)
      previewShown := true
      analyzeBtnDisabled := false
      errorShown := false }

/-- Case analysis of covid.js `validateField`: `invalid` iff the value
does not parse or the parsed value is out of `[min, max]`; `validAbnormal`
iff it is inside the bounds but outside the declared normal range;
`validNormal` otherwise; and the empty string is classified `empty`, not
`invalid`. -/
lemma validateField_cases (spec : NumericSpec) (v : RawValue) :
    (validateField spec v = Validity.invalid ↔
      v = RawValue.nonNumeric ∨
        ∃ q, v = RawValue.num q ∧ (q < spec.min ∨ q > spec.max)) ∧
    (validateField spec v = Validity.validAbnormal ↔
      ∃ q nr, v = RawValue.num q ∧ spec.min ≤ q ∧ q ≤ spec.max ∧
        spec.normal = some nr ∧ (q < nr.1 ∨ q > nr.2)) ∧
    (validateField spec v = Validity.validNormal ↔
      ∃ q, v = RawValue.num q ∧ spec.min ≤ q ∧ q ≤ spec.max ∧
        ∀ nr, spec.normal = some nr → nr.1 ≤ q ∧ q ≤ nr.2) ∧
    (validateField spec v = Validity.empty ↔ v = RawValue.emptyStr) := by
  rcases v with _ | _ | q
  · refine ⟨?_, ?_, ?_, ?_⟩ <;> simp [validateField]
  · refine ⟨?_, ?_, ?_, ?_⟩ <;> simp [validateField]
  · rcases hnr : spec.normal with _ | nr <;>
      refine ⟨?_, ?_, ?_, ?_⟩ <;>
        (simp only [validateField, hnr, gt_iff_lt]
         split_ifs with h1 h2 <;>
           simp_all only [RawValue.num.injEq, exists_eq_left, reduceCtorEq,
             Option.some.injEq, exists_eq_left', exists_and_left, exists_false,
             false_iff, true_iff, iff_true, iff_false, not_or, not_lt, not_exists,
             not_and, not_forall, forall_eq', Option.some.injEq, and_true,
             true_and, false_and, and_false, or_false, false_or] <;>
           first
           | rfl
           | tauto
           | (intros
              try simp only [not_le]
              first
              | (rcases h1 with h | h <;> linarith)
              | (rcases h2 with h | h <;> linarith)
              | linarith
              | (exfalso
                 first
                 | (rcases h1 with h | h <;> linarith)
                 | (rcases h2 with h | h <;> linarith)
                 | linarith)))

/-- C5 counterexample: the string `"0.5"` is neither `"0"` nor `"1"`, yet
`validateBinaryInput` accepts it, because `parseInt("0.5")` is `0`.  So it
is not the case that exactly the strings `"0"` and `"1"` yield a valid
outcome. -/
theorem validateBinaryInput_accepts_nonbinary_string :
    validateBinaryInput "0.5" = true ∧ "0.5" ≠ "0" ∧ "0.5" ≠ "1" :=
  ⟨rfl, by decide, by decide⟩

/-- C5 (amended): a string yields a valid outcome iff JavaScript
`parseInt` maps it to `0` or `1`; in particular `"0"` and `"1"` are valid
and `"2"`, `"abc"` and `""` are rejected (the empty string is rejected as
invalid — `validateBinaryInput` has no separate empty tier). -/
theorem validateBinaryInput_spec :
    (∀ s, validateBinaryInput s = true ↔
      (parseIntJS s = some 0 ∨ parseIntJS s = some 1)) ∧
    validateBinaryInput "0" = true ∧
    validateBinaryInput "1" = true ∧
    validateBinaryInput "2" = false ∧
    validateBinaryInput "abc" = false ∧
    validateBinaryInput "" = false := by
  refine ⟨?_, rfl, rfl, rfl, rfl, rfl⟩
  intro s
  unfold validateBinaryInput
  rcases h : parseIntJS s with _ | v <;> simp

/-- C6 counterexample: the cardiovascular variant's classification is not
case-insensitive: `"High Risk"` and `"positive"` are classified low-risk
there, while the shared renderer classifies `"High Risk"` high-risk.  So
the claimed classification does not hold in every form variant. -/
theorem cardioRisk_not_case_insensitive :
    cardioDisplayIsHighRisk "High Risk" = false ∧
    cardioDisplayIsHighRisk "positive" = false ∧
    showResultIsHighRisk "High Risk" = true :=
  ⟨rfl, rfl, rfl⟩

/-- C6 (amended): the shared result renderer (`showResult`, also used by
the lung variant) classifies high-risk iff the lower-cased prediction
contains `"high risk"` or `"positive"`, so `"High Risk"`, `"HIGH RISK"`
and `"positive"` are high-risk and `"Low Risk"`, `"negative"` low-risk;
the cardiovascular `displayResults` instead tests case-sensitively for the
substring `"HIGH RISK"` only. -/
theorem riskClassification_spec :
    (∀ p, showResultIsHighRisk p = true ↔
      (jsIncludes (jsToLowerCase p) "high risk" = true ∨
        jsIncludes (jsToLowerCase p) "positive" = true)) ∧
    showResultIsHighRisk "High Risk" = true ∧
    showResultIsHighRisk "HIGH RISK" = true ∧
    showResultIsHighRisk "positive" = true ∧
    showResultIsHighRisk "Low Risk" = false ∧
    showResultIsHighRisk "negative" = false ∧
    cardioDisplayIsHighRisk "HIGH RISK" = true ∧
    cardioDisplayIsHighRisk "High Risk" = false := by
  refine ⟨?_, rfl, rfl, rfl, rfl, rfl, rfl, rfl⟩
  intro p
  unfold showResultIsHighRisk
  simp

/-- C7: `getBMICategory` buckets BMI into underweight below 18.5, normal
weight below 25, overweight below 30 and obese from 30 up, over the BMI
`weight / (height_in_m)^2` computed by the renderer; weight 70 kg at
175 cm is "Normal weight" and weight 100 kg at 170 cm is "Obese". -/
theorem bmi_bucketing_spec :
    (∀ b : ℚ, b < 18.5 → getBMICategory b = "Underweight") ∧
    (∀ b : ℚ, 18.5 ≤ b → b < 25 → getBMICategory b = "Normal weight") ∧
    (∀ b : ℚ, 25 ≤ b → b < 30 → getBMICategory b = "Overweight") ∧
    (∀ b : ℚ, 30 ≤ b → getBMICategory b = "Obese") ∧
    getBMICategory (computeBMI 70 175) = "Normal weight" ∧
    getBMICategory (computeBMI 100 170) = "Obese" := by
  refine ⟨?_, ?_, ?_, ?_, ?_, ?_⟩
  · intro b h
    simp [getBMICategory, h]
  · intro b h1 h2
    have hn1 : ¬ b < 18.5 := not_lt.mpr (le_trans (by norm_num) h1)
    simp [getBMICategory, hn1, h2]
  · intro b h1 h2
    have hn1 : ¬ b < 18.5 := not_lt.mpr (le_trans (by norm_num) h1)
    have hn2 : ¬ b < 25 := not_lt.mpr h1
    simp [getBMICategory, hn1, hn2, h2]
  · intro b h1
    have hn1 : ¬ b < 18.5 := not_lt.mpr (le_trans (by norm_num) h1)
    have hn2 : ¬ b < 25 := not_lt.mpr (le_trans (by norm_num) h1)
    have hn3 : ¬ b < 30 := not_lt.mpr h1
    simp [getBMICategory, hn1, hn2, hn3]
  · norm_num [computeBMI, getBMICategory]
  · norm_num [computeBMI, getBMICategory]

/-- C7 witness: the four buckets evaluated at concrete BMI values. -/
theorem bmi_bucketing_witness :
    getBMICategory 17 = "Underweight" ∧
    getBMICategory 22 = "Normal weight" ∧
    getBMICategory 27 = "Overweight" ∧
    getBMICategory 35 = "Obese" :=
  ⟨bmi_bucketing_spec.1 17 (by norm_num),
   bmi_bucketing_spec.2.1 22 (by norm_num) (by norm_num),
   bmi_bucketing_spec.2.2.1 27 (by norm_num) (by norm_num),
   bmi_bucketing_spec.2.2.2.1 35 (by norm_num)⟩

/-- C4 counterexample: in the part_001 cardiovascular variant the submit
control stays enabled even when a required field is empty —
`updateSubmitButton` sets `disabled = false` unconditionally and only
changes the label. -/
theorem cardioSubmitButton_never_disabled :
    (cardioUpdateSubmitButton [⟨false, false⟩]).1 = false ∧
    (cardioUpdateSubmitButton [⟨false, false⟩]).2 = "Complete all fields to continue" :=
  ⟨rfl, rfl⟩

/-- C4 (amended): in the COVID form the submit control is disabled
(`canSubmit` is false) whenever any required field is empty or invalid,
regardless of every other field's state; the part_001 cardiovascular
variant never disables its submit control, for any field-state
collection. -/
theorem canSubmit_spec :
    (∀ (l : List Validity) (i : Nat) (h : i < l.length),
      (l.get ⟨i, h⟩ = Validity.empty ∨ l.get ⟨i, h⟩ = Validity.invalid) →
      covidCanSubmit l = false) ∧
    (∀ fields : List CardioFieldState, (cardioUpdateSubmitButton fields).1 = false) := by
  constructor
  · intro l i h hbad
    unfold covidCanSubmit
    cases hca : l.all isComplete
    · rfl
    · exfalso
      have hmem : l.get ⟨i, h⟩ ∈ l := l.get_mem i h
      have := List.all_eq_true.mp hca _ hmem
      rcases hbad with hb | hb <;> rw [hb] at this <;> simp [isComplete] at this
  · intro fields
    rfl

/-- C4 witness: a single empty required field forces `canSubmit = false`
in the COVID form. -/
theorem canSubmit_spec_witness :
    covidCanSubmit [Validity.empty] = false :=
  canSubmit_spec.1 [Validity.empty] 0 (by decide) (Or.inl rfl)

/-- Replacing an incomplete field by a complete one raises the complete
count by exactly one. -/
lemma countComplete_set (l : List Validity) (i : Nat) (w : Validity) :
    ∀ h : i < l.length, isComplete (l.get ⟨i, h⟩) = false → isComplete w = true →
      countComplete (l.set i w) = countComplete l + 1 := by
  induction l generalizing i with
  | nil =>
    intro h
    exact absurd h (by simp)
  | cons a t ih =>
    intro h hold hw
    cases i with
    | zero =>
      have ha : isComplete a = false := hold
      simp [countComplete, List.set, List.filter_cons, ha, hw]
    | succ j =>
      have h' : j < t.length := by simpa using h
      have hold' : isComplete (t.get ⟨j, h'⟩) = false := hold
      have hrec := ih j h' hold' hw
      simp only [List.set]
      cases hca : isComplete a <;>
        simp [countComplete, List.filter_cons, hca] at hrec ⊢ <;> omega

/-- C8: the progress percentage is monotone under a single field-state
transition from an incomplete state (empty or invalid) to a valid state,
all other fields unchanged. -/
theorem progressPercent_monotone (l : List Validity) (i : Nat) (w : Validity)
    (h : i < l.length) (hold : isComplete (l.get ⟨i, h⟩) = false)
    (hw : isComplete w = true) :
    progressPercent l ≤ progressPercent (l.set i w) := by
  have hlen : (l.set i w).length = l.length := List.length_set l i w
  have hc : countComplete (l.set i w) = countComplete l + 1 :=
    countComplete_set l i w h hold hw
  unfold progressPercent
  rw [hlen, hc]
  have hpos : (0 : ℚ) < (l.length : ℚ) := by
    have h0 : 0 < l.length := Nat.lt_of_le_of_lt (Nat.zero_le i) h
    exact_mod_cast h0
  have hle : ((countComplete l : ℚ)) ≤ ((countComplete l + 1 : Nat) : ℚ) := by
    push_cast
    linarith
  have hdiv : ((countComplete l : ℚ)) / (l.length : ℚ) ≤
      (((countComplete l + 1 : Nat) : ℚ)) / (l.length : ℚ) :=
    div_le_div_of_nonneg_right hle hpos.le
  exact mul_le_mul_of_nonneg_right hdiv (by norm_num)

/-- C8 witness: filling the single empty field of a one-field form does
not decrease the progress percentage. -/
theorem progressPercent_monotone_witness :
    progressPercent [Validity.empty] ≤
      progressPercent ([Validity.empty].set 0 Validity.validNormal) :=
  progressPercent_monotone [Validity.empty] 0 Validity.validNormal
    (by decide) rfl rfl

/-- Every empty required field contributes its `is required` line to the
consolidated error list. -/
lemma covidErrors_mem_empty (fields : List (String × Validity)) (n : String) :
    (n, Validity.empty) ∈ fields → (n ++ " is required") ∈ covidErrors fields := by
  induction fields with
  | nil =>
    intro hmem
    cases hmem
  | cons f rest ih =>
    obtain ⟨fn, fv⟩ := f
    intro hmem
    rcases List.mem_cons.mp hmem with hm | hm
    · rw [Prod.mk.injEq] at hm
      obtain ⟨rfl, hfv⟩ := hm
      rw [← hfv]
      simp [covidErrors]
    · cases fv <;> simp only [covidErrors] <;>
        first
        | exact List.mem_cons_of_mem _ (ih hm)
        | exact ih hm

/-- Every invalid required field contributes its `has an invalid value`
line to the consolidated error list. -/
lemma covidErrors_mem_invalid (fields : List (String × Validity)) (n : String) :
    (n, Validity.invalid) ∈ fields →
      (n ++ " has an invalid value") ∈ covidErrors fields := by
  induction fields with
  | nil =>
    intro hmem
    cases hmem
  | cons f rest ih =>
    obtain ⟨fn, fv⟩ := f
    intro hmem
    rcases List.mem_cons.mp hmem with hm | hm
    · rw [Prod.mk.injEq] at hm
      obtain ⟨rfl, hfv⟩ := hm
      rw [← hfv]
      simp [covidErrors]
    · cases fv <;> simp only [covidErrors] <;>
        first
        | exact List.mem_cons_of_mem _ (ih hm)
        | exact ih hm

/-- C2 counterexample: in the lung-cancer variant (part_001
`validateForm`), with two offending fields the surfaced message names only
the first one — it is not a consolidated message listing every offending
field.  (The submission is still aborted: `isValid` is false.) -/
theorem lungValidateForm_first_error_only :
    lungValidateForm [("smoking", some 5), ("coughing", some 7)] true =
      (false, some "Please enter 0 or 1 for smoking") ∧
    jsIncludes "Please enter 0 or 1 for smoking" "coughing" = false :=
  ⟨rfl, rfl⟩

/-- C2 (amended): in the COVID form, whenever some required field is empty
or invalid, submit issues zero network requests and the consolidated error
list names every offending field (its display name with the matching
`is required` / `has an invalid value` line); the lung variant also issues
zero requests but surfaces a message for the first offending field only. -/
theorem covidSubmit_rejection_spec (fields : List (String × Validity))
    (hbad : ∃ p ∈ fields, p.2 = Validity.empty ∨ p.2 = Validity.invalid) :
    (covidHandleSubmit fields).1 = 0 ∧
    (∀ p ∈ fields,
      (p.2 = Validity.empty →
        (p.1 ++ " is required") ∈ (covidHandleSubmit fields).2) ∧
      (p.2 = Validity.invalid →
        (p.1 ++ " has an invalid value") ∈ (covidHandleSubmit fields).2)) := by
  obtain ⟨p, hp, hcase⟩ := hbad
  have hne : covidErrors fields ≠ [] := by
    rcases hcase with hc | hc
    · have := covidErrors_mem_empty fields p.1 (by rw [← hc]; simpa using hp)
      exact List.ne_nil_of_mem this
    · have := covidErrors_mem_invalid fields p.1 (by rw [← hc]; simpa using hp)
      exact List.ne_nil_of_mem this
  have hie : (covidErrors fields).isEmpty = false := by
    cases hl : covidErrors fields
    · exact absurd hl hne
    · rfl
  have hsubmit : covidHandleSubmit fields = (0, covidErrors fields) := by
    unfold covidHandleSubmit covidValidateForm
    rw [hie]
  refine ⟨by rw [hsubmit], ?_⟩
  intro q hq
  constructor
  · intro hqe
    rw [hsubmit]
    exact covidErrors_mem_empty fields q.1 (by rw [← hqe]; simpa using hq)
  · intro hqi
    rw [hsubmit]
    exact covidErrors_mem_invalid fields q.1 (by rw [← hqi]; simpa using hq)

/-- C2 witness: an invalid Age field and an empty Leukocytes field cause
zero fetches and both fields are named in the consolidated errors. -/
theorem covidSubmit_rejection_witness :
    (covidHandleSubmit [("Age", Validity.invalid), ("Leukocytes", Validity.empty)]).1 = 0 ∧
    ("Age has an invalid value") ∈
      (covidHandleSubmit [("Age", Validity.invalid), ("Leukocytes", Validity.empty)]).2 ∧
    ("Leukocytes is required") ∈
      (covidHandleSubmit [("Age", Validity.invalid), ("Leukocytes", Validity.empty)]).2 := by
  have h := covidSubmit_rejection_spec
    [("Age", Validity.invalid), ("Leukocytes", Validity.empty)]
    ⟨("Age", Validity.invalid), by simp, Or.inr rfl⟩
  exact ⟨h.1,
    (h.2 ("Age", Validity.invalid) (by simp)).2 rfl,
    (h.2 ("Leukocytes", Validity.empty) (by simp)).1 rfl⟩

/-- One covid.js pipeline step preserves the pipeline invariant. -/
lemma covidStep_inv (m : PipelineUI) (e : SubmitEvent) (h : covidPipelineInv m) :
    covidPipelineInv (covidStep m e) := by
  rcases e with v | _
  · rcases h with ⟨hd, hf⟩ | ⟨hd, hf⟩
    · cases v <;> simp [covidStep, covidPipelineInv, hd, hf]
    · simp [covidStep, covidPipelineInv, hd, hf]
  · rcases h with ⟨hd, hf⟩ | ⟨hd, hf⟩
    · simp [covidStep, covidPipelineInv, hd, hf]
    · simp [covidStep, covidPipelineInv, hd, hf]

/-- The covid.js pipeline invariant holds along every event sequence. -/
lemma covidFoldl_inv (evs : List SubmitEvent) (m : PipelineUI)
    (h : covidPipelineInv m) :
    covidPipelineInv (List.foldl covidStep m evs) := by
  induction evs generalizing m with
  | nil => simpa using h
  | cons e rest ih => exact ih _ (covidStep_inv m e h)

/-- C3 counterexample: in the part_001 cardiovascular variant the submit
control is never disabled, so a second submit during the pending window
starts a second (mock) prediction request: two requests are in flight. -/
theorem cardioMock_double_submit :
    (List.foldl cardioMockStep pipelineInit
      [SubmitEvent.submit true, SubmitEvent.submit true]).inFlight = 2 ∧
    (List.foldl cardioMockStep pipelineInit
      [SubmitEvent.submit true, SubmitEvent.submit true]).total = 2 :=
  ⟨rfl, rfl⟩

/-- C3 (amended): in the COVID form, along every sequence of submit/settle
events from page load at most one prediction request is ever in flight,
and a submit attempt while the control is disabled changes nothing (no
additional request); the part_001 cardiovascular variant never disables
its control and does admit overlapping submissions. -/
theorem covidPipeline_single_flight :
    (∀ evs : List SubmitEvent,
      (List.foldl covidStep pipelineInit evs).inFlight ≤ 1) ∧
    (∀ (n t : Nat) (v : Bool),
      covidStep ⟨true, n, t⟩ (SubmitEvent.submit v) = ⟨true, n, t⟩) := by
  constructor
  · intro evs
    rcases covidFoldl_inv evs pipelineInit (Or.inl ⟨rfl, rfl⟩) with ⟨_, hf⟩ | ⟨_, hf⟩ <;>
      rw [hf] <;> omega
  · intro n t v
    rfl

/-- A string containing a non-empty substring is itself non-empty. -/
lemma jsIncludes_ne_nil (msg pat : String) (h : jsIncludes msg pat = true)
    (hp : pat.data ≠ []) : (msg == "") = false := by
  cases hm : msg == ""
  · rfl
  · exfalso
    have hmeq := eq_of_beq hm
    subst hmeq
    have h0 : listIncludes pat.data [] = true := h
    simp [listIncludes] at h0
    exact hp (by simpa using h0)

/-- C9 counterexample: an error message matching none of the inspected
keywords (`fetch`, `JSON`, `model`) is surfaced to the user verbatim — the
raw technical error text is the displayed sentence, contradicting "never
surfaced". -/
theorem showError_surfaces_raw_message :
    showErrorFriendly "HTTP 500: Internal Server Error" =
      "HTTP 500: Internal Server Error" :=
  rfl

/-- C9 (amended): errors are classified by message content — `fetch` →
fixed connectivity sentence, otherwise `JSON` → fixed server-format
sentence, otherwise lower-cased `model` → fixed unavailable sentence, an
empty message → generic sentence — but any other non-empty message is
shown verbatim, so raw error text can reach the user. -/
theorem showError_classification_spec :
    (∀ msg : String, jsIncludes msg "fetch" = true →
      showErrorFriendly msg =
        "Unable to connect to server. Please check your internet connection.") ∧
    (∀ msg : String, jsIncludes msg "fetch" = false →
      jsIncludes msg "JSON" = true →
      showErrorFriendly msg = "Server returned invalid response. Please try again.") ∧
    (∀ msg : String, jsIncludes msg "fetch" = false →
      jsIncludes msg "JSON" = false →
      jsIncludes (jsToLowerCase msg) "model" = true →
      showErrorFriendly msg =
        "Prediction service is currently unavailable. Please try again later.") ∧
    showErrorFriendly "" = "Please try again or check your connection." := by
  refine ⟨?_, ?_, ?_, rfl⟩
  · intro msg h
    have hne := jsIncludes_ne_nil msg "fetch" h (by decide)
    simp [showErrorFriendly, hne, h]
  · intro msg h1 h2
    have hne := jsIncludes_ne_nil msg "JSON" h2 (by decide)
    simp [showErrorFriendly, hne, h1, h2]
  · intro msg h1 h2 h3
    have hne : (msg == "") = false := by
      cases hm : msg == ""
      · rfl
      · exfalso
        have hmeq := eq_of_beq hm
        subst hmeq
        exact absurd h3 (by decide)
    simp [showErrorFriendly, hne, h1, h2, h3]

/-- C9 witness: one concrete message per classified error class. -/
theorem showError_classification_witness :
    showErrorFriendly "Failed to fetch" =
      "Unable to connect to server. Please check your internet connection." ∧
    showErrorFriendly "Unexpected token in JSON" =
      "Server returned invalid response. Please try again." ∧
    showErrorFriendly "Model not loaded" =
      "Prediction service is currently unavailable. Please try again later." :=
  ⟨showError_classification_spec.1 "Failed to fetch" (by rfl),
   showError_classification_spec.2.1 "Unexpected token in JSON" (by rfl) (by rfl),
   showError_classification_spec.2.2.1 "Model not loaded" (by rfl) (by rfl) (by rfl)⟩

/-- C10: `processFile` accepts a file iff its MIME type is in `validTypes`
and its size is at most 10485760 bytes; acceptance stores the file, shows
the preview, enables the analyze button and hides the error card, while
rejection shows the error and leaves `currentFile`, the preview and the
analyze button's disabled state untouched. -/
theorem processFile_spec :
    (∀ (st : EyeState) (t : String) (s : Nat),
      t ∈ validTypes → s ≤ eyeMaxSize →
      processFile st t s = ⟨some (t, s), true, false, false⟩) ∧
    (∀ (st : EyeState) (t : String) (s : Nat),
      (t ∉ validTypes ∨ s > eyeMaxSize) →
      (processFile st t s).currentFile = st.currentFile ∧
      (processFile st t s).previewShown = st.previewShown ∧
      (processFile st t s).analyzeBtnDisabled = st.analyzeBtnDisabled ∧
      (processFile st t s).errorShown = true) := by
  constructor
  · intro st t s ht hs
    simp [processFile, ht, Nat.not_lt.mpr hs]
  · intro st t s hbad
    rcases hbad with hb | hb
    · simp [processFile, hb]
    · by_cases hmem : t ∈ validTypes
      · simp [processFile, hmem, hb]
      · simp [processFile, hmem]

/-- C10 witness: a PNG of exactly 10485760 bytes is accepted; a text file
is rejected with the upload state unchanged. -/
theorem processFile_spec_witness :
    processFile ⟨none, false, true, false⟩ "image/png" 10485760 =
      ⟨some ("image/png", 10485760), true, false, false⟩ ∧
    (processFile ⟨none, false, true, false⟩ "text/plain" 1).currentFile = none ∧
    (processFile ⟨none, false, true, false⟩ "text/plain" 1).errorShown = true := by
  have h1 := processFile_spec.1 ⟨none, false, true, false⟩ "image/png" 10485760
    (by decide) (by decide)
  have h2 := processFile_spec.2 ⟨none, false, true, false⟩ "text/plain" 1
    (Or.inl (by decide))
  exact ⟨h1, h2.1, h2.2.2.2⟩

/-- C1 counterexample: the gating validator `validateNumericInput`
(part_000) classifies the empty string as invalid, not empty — with no
empty check before `parseFloat`, an empty Age value is `NaN` and takes the
`Please enter a valid number` alert path, so the empty string is not
classified as a separate empty tier in this cited validator. -/
theorem validateNumericInput_empty_invalid :
    validateNumericInput RawValue.emptyStr 1 120 "Age" =
      (false, some (NumericAlert.notANumber "Age")) :=
  rfl

/-- C1 (amended): covid.js `validateField` behaves exactly as claimed —
`invalid` iff the value does not parse or is outside `[min, max]`,
`valid-abnormal` iff inside the bounds but outside the declared
`normalRange`, `valid-normal` otherwise, and the empty string gets the
separate `empty` tier; the also-cited gating validator
`validateNumericInput` returns valid iff the value parses and lies within
`[min, max]`, and has no empty tier: the empty string is `NaN` there and
is classified invalid via the `Please enter a valid number` alert. -/
theorem numericValidator_spec (spec : NumericSpec) (v : RawValue) (name : String) :
    ((validateField spec v = Validity.invalid ↔
        v = RawValue.nonNumeric ∨
          ∃ q, v = RawValue.num q ∧ (q < spec.min ∨ q > spec.max)) ∧
      (validateField spec v = Validity.validAbnormal ↔
        ∃ q nr, v = RawValue.num q ∧ spec.min ≤ q ∧ q ≤ spec.max ∧
          spec.normal = some nr ∧ (q < nr.1 ∨ q > nr.2)) ∧
      (validateField spec v = Validity.validNormal ↔
        ∃ q, v = RawValue.num q ∧ spec.min ≤ q ∧ q ≤ spec.max ∧
          ∀ nr, spec.normal = some nr → nr.1 ≤ q ∧ q ≤ nr.2) ∧
      (validateField spec v = Validity.empty ↔ v = RawValue.emptyStr)) ∧
    ((validateNumericInput v spec.min spec.max name).1 = true ↔
      ∃ q, v = RawValue.num q ∧ spec.min ≤ q ∧ q ≤ spec.max) ∧
    validateNumericInput RawValue.emptyStr spec.min spec.max name =
      (false, some (NumericAlert.notANumber name)) := by
  refine ⟨validateField_cases spec v, ?_, rfl⟩
  cases v with
  | emptyStr => simp [validateNumericInput, parseFloatRV]
  | nonNumeric => simp [validateNumericInput, parseFloatRV]
  | num q =>
    by_cases h1 : q < spec.min
    · simp [validateNumericInput, parseFloatRV, h1]
    · by_cases h2 : q > spec.max
      · simp [validateNumericInput, parseFloatRV, h1, h2]
      · simp [validateNumericInput, parseFloatRV, h1, h2, not_lt.mp h1, not_lt.mp h2]
